import Mathlib

/-!
Verification of `guassian_beam.py` (beam-width analysis by the knife-edge method).

The repository has two functions:

* `guassian_beam_erfc(x, p_offset, p_max, x_half, w)` — evaluates the
  Gaussian-beam knife-edge model `p_offset + (p_max/2) * erfc((x - x_half)/(w/sqrt 2))`
  elementwise over a pandas Series `x`;
* `fit_data(model_function, x_data, y_data, initial_guess)` — delegates to
  `scipy.optimize.curve_fit` and returns `[param, covariance]`.

We embed the model function at two levels of fidelity:

* `guassian_beam_erfc` over lists of real numbers — the idealized real-arithmetic
  semantics (IEEE rounding ignored), used for the algebraic claims;
* `guassian_beam_erfcF` over lists of `NFloat` — real magnitudes extended with the
  IEEE special values `+inf`, `-inf` and `NaN`, with the special-value propagation
  rules of NumPy elementwise arithmetic.  NumPy float division by zero does not
  raise: it emits a runtime warning and produces `±inf` or `NaN`, and this model
  captures exactly that behaviour (the divisor produced by `w/np.sqrt(2)` is a
  scalar, and when `w == 0.0` it is positive zero).

`scipy.optimize.curve_fit` is external library code (only its caller `fit_data`
is in the repository), so the solver is modelled from the spec; the numerical
optimizer itself is kept abstract as an argument.
-/

open MeasureTheory intervalIntegral

/-- The error function, `erf y = (2/√π) ∫ t in 0..y, exp (-t²)`.  This is the
mathematical function computed (to double precision) by `scipy.special.erf`. -/
noncomputable def erf (y : ℝ) : ℝ :=
  (2 / Real.sqrt Real.pi) * ∫ t in (0:ℝ)..y, Real.exp (-t ^ 2)

/-- The complementary error function `erfc y = 1 - erf y`, the mathematical
function computed by `scipy.special.erfc`. -/
noncomputable def erfc (y : ℝ) : ℝ := 1 - erf y

/-- Real-arithmetic embedding of `guassian_beam_erfc` (src/guassian_beam.py,
lines 25-26): `y = (x - x_half)/(w/np.sqrt(2))` followed by
`p_offset + ((p_max/2) * special.erfc(y))`, elementwise over the series `x`. -/
noncomputable def guassian_beam_erfc (x : List ℝ) (p_offset p_max x_half w : ℝ) :
    List ℝ :=
  let y := x.map (fun xi => (xi - x_half) / (w / Real.sqrt 2))
  y.map (fun yi => p_offset + (p_max / 2) * erfc yi)

/- ### Basic facts about `erf` and `erfc` -/

lemma gaussKernel_continuous : Continuous fun t : ℝ => Real.exp (-t ^ 2) :=
  Real.continuous_exp.comp ((continuous_pow 2).neg)

lemma gaussKernel_intervalIntegrable (a b : ℝ) :
    IntervalIntegrable (fun t : ℝ => Real.exp (-t ^ 2)) volume a b :=
  gaussKernel_continuous.intervalIntegrable a b

lemma erf_zero : erf 0 = 0 := by
  simp [erf]

lemma erfc_zero : erfc 0 = 1 := by
  simp [erfc, erf_zero]

lemma two_div_sqrt_pi_pos : 0 < 2 / Real.sqrt Real.pi :=
  div_pos (by norm_num) (Real.sqrt_pos.mpr Real.pi_pos)

lemma erf_strictMono : StrictMono erf := by
  intro a b hab
  have hsplit :
      (∫ t in (0:ℝ)..a, Real.exp (-t ^ 2)) + (∫ t in a..b, Real.exp (-t ^ 2)) =
        ∫ t in (0:ℝ)..b, Real.exp (-t ^ 2) :=
    integral_add_adjacent_intervals (gaussKernel_intervalIntegrable 0 a)
      (gaussKernel_intervalIntegrable a b)
  have hpos : 0 < ∫ t in a..b, Real.exp (-t ^ 2) :=
    intervalIntegral_pos_of_pos (gaussKernel_intervalIntegrable a b)
      (fun t => Real.exp_pos _) hab
  have hlt : (∫ t in (0:ℝ)..a, Real.exp (-t ^ 2)) <
      ∫ t in (0:ℝ)..b, Real.exp (-t ^ 2) := by
    nlinarith
  exact mul_lt_mul_of_pos_left hlt two_div_sqrt_pi_pos

lemma erf_neg (y : ℝ) : erf (-y) = - erf y := by
  have hcomp :
      (∫ t in (0:ℝ)..y, Real.exp (-(-t) ^ 2)) =
        ∫ t in (-y)..(-(0:ℝ)), Real.exp (-t ^ 2) :=
    integral_comp_neg (fun t => Real.exp (-t ^ 2))
  have heven :
      (∫ t in (0:ℝ)..y, Real.exp (-(-t) ^ 2)) =
        ∫ t in (0:ℝ)..y, Real.exp (-t ^ 2) := by
    congr 1
    ext t
    ring_nf
  have hsymm :
      (∫ t in (-y)..(0:ℝ), Real.exp (-t ^ 2)) =
        - ∫ t in (0:ℝ)..(-y), Real.exp (-t ^ 2) :=
    integral_symm 0 (-y)
  have : (∫ t in (0:ℝ)..(-y), Real.exp (-t ^ 2)) =
      - ∫ t in (0:ℝ)..y, Real.exp (-t ^ 2) := by
    have h0 : (-(0:ℝ)) = 0 := by norm_num
    rw [h0] at hcomp
    rw [heven] at hcomp
    linarith [hcomp, hsymm]
  simp only [erf, this, mul_neg]

lemma erfc_strictAnti : StrictAnti erfc := by
  intro a b hab
  have := erf_strictMono hab
  simp only [erfc]
  linarith

lemma erfc_add_erfc_neg (y : ℝ) : erfc y + erfc (-y) = 2 := by
  simp only [erfc, erf_neg]
  ring

/- ### IEEE special-value model of the NumPy arithmetic

NumPy elementwise float arithmetic never raises on division by zero: it issues a
runtime warning and produces `inf`, `-inf` or `nan` following IEEE 754.  `NFloat`
is a float value with exact real magnitude: rounding is ignored, the special
values are modelled exactly.  Only the Series-scalar operations appearing in
`guassian_beam_erfc` are defined.  The scalar parameters are Python floats,
modelled as (finite) real numbers; a zero scalar divisor is positive zero
(`w/np.sqrt(2)` with `w == 0.0` is `+0.0`). -/
inductive NFloat : Type
  | finite (v : ℝ) : NFloat
  | posInf : NFloat
  | negInf : NFloat
  | nan : NFloat

namespace NFloat

/-- Series minus scalar, `x - x_half` in NumPy semantics. -/
def subScalar : NFloat → ℝ → NFloat
  | finite v, c => finite (v - c)
  | posInf, _ => posInf
  | negInf, _ => negInf
  | nan, _ => nan

/-- Series divided by scalar, `(...)/(w/np.sqrt(2))` in NumPy semantics.  When
the (positive-zero) divisor is `0`, a finite positive numerator gives `inf`, a
finite negative one gives `-inf`, and `0/0` gives `nan`. -/
noncomputable def divScalar : NFloat → ℝ → NFloat
  | finite v, c =>
      if c = 0 then (if 0 < v then posInf else if v < 0 then negInf else nan)
      else finite (v / c)
  | posInf, c => if c < 0 then negInf else posInf
  | negInf, c => if c < 0 then posInf else negInf
  | nan, _ => nan

/-- Scalar times Series, `(p_max/2) * special.erfc(y)` in NumPy semantics. -/
noncomputable def mulScalar : NFloat → ℝ → NFloat
  | finite v, c => finite (c * v)
  | posInf, c => if 0 < c then posInf else if c < 0 then negInf else nan
  | negInf, c => if 0 < c then negInf else if c < 0 then posInf else nan
  | nan, _ => nan

/-- Scalar plus Series, `p_offset + (...)` in NumPy semantics. -/
def addScalar : NFloat → ℝ → NFloat
  | finite v, c => finite (c + v)
  | posInf, _ => posInf
  | negInf, _ => negInf
  | nan, _ => nan

/-- `scipy.special.erfc` extended to the IEEE special values: it is exact at the
infinities (`erfc(inf) = 0.0`, `erfc(-inf) = 2.0`) and propagates `NaN`. -/
noncomputable def erfcF : NFloat → NFloat
  | finite v => finite (erfc v)
  | posInf => finite 0
  | negInf => finite 2
  | nan => nan

end NFloat

/-- Special-value-faithful embedding of `guassian_beam_erfc`
(src/guassian_beam.py, lines 25-26), the same two lines as `guassian_beam_erfc`
above but with the NumPy IEEE special-value semantics of the elementwise
operations made explicit. -/
noncomputable def guassian_beam_erfcF (x : List NFloat)
    (p_offset p_max x_half w : ℝ) : List NFloat :=
  let y := x.map (fun xi => (xi.subScalar x_half).divScalar (w / Real.sqrt 2))
  y.map (fun yi => ((yi.erfcF).mulScalar (p_max / 2)).addScalar p_offset)

/-- Coherence of the two embeddings: on finite inputs with a nonzero beam
radius, the special-value model is the real-arithmetic model with every entry
wrapped in `NFloat.finite`. -/
lemma guassian_beam_erfcF_coe (x : List ℝ) (p_offset p_max x_half w : ℝ)
    (hw : w ≠ 0) :
    guassian_beam_erfcF (x.map NFloat.finite) p_offset p_max x_half w =
      (guassian_beam_erfc x p_offset p_max x_half w).map NFloat.finite := by
  have hc : (w / Real.sqrt 2) ≠ 0 :=
    div_ne_zero hw (by positivity)
  simp only [guassian_beam_erfcF, guassian_beam_erfc, List.map_map]
  refine List.map_congr_left ?_
  intro v _
  simp [Function.comp, NFloat.subScalar, NFloat.divScalar, NFloat.erfcF,
    NFloat.mulScalar, NFloat.addScalar, hc, mul_comm, add_comm]

/- ### Model of the external solver, `scipy.optimize.curve_fit`

Only the caller `fit_data` is in the repository; the solver itself is external
library code.  It is modelled from the spec (section 4.2): the call checks
dimensions (unequal x/y data lengths, or an initial guess whose length differs
from the model function's parameter count, are dimension-mismatch failures),
then runs a nonlinear least-squares optimization from the initial guess, which
either fails to converge or yields a parameter vector of the same length and
order as the initial guess together with a square covariance matrix with one
row and one column per parameter.  The numerical optimizer itself is abstract:
`solve` returns the refined parameters (`none` on non-convergence) and `cov`
the covariance entries. -/
inductive FitError : Type
  | dimensionMismatch : FitError
  | nonConvergence : FitError
deriving DecidableEq

/-- Modelled from the spec: `scipy.optimize.curve_fit` (external to the
repository; spec section 4.2).  `nparams` is the model function's parameter
count, `solve` and `cov` abstract the numerical optimizer. -/
def curve_fit (nparams : ℕ)
    (solve : (ℝ → List ℝ → ℝ) → List ℝ → List ℝ → List ℝ → Option (ℕ → ℝ))
    (cov : (ℝ → List ℝ → ℝ) → List ℝ → List ℝ → List ℝ → ℕ → ℕ → ℝ)
    (model_function : ℝ → List ℝ → ℝ) (x_data y_data : List ℝ)
    (p0 : List ℝ) : Except FitError (List ℝ × List (List ℝ)) :=
  if x_data.length ≠ y_data.length then .error .dimensionMismatch
  else if p0.length ≠ nparams then .error .dimensionMismatch
  else
    match solve model_function x_data y_data p0 with
    | none => .error .nonConvergence
    | some p =>
        .ok ((List.range p0.length).map p,
          (List.range p0.length).map fun i =>
            (List.range p0.length).map fun j =>
              cov model_function x_data y_data p0 i j)

/-- Embedding of `fit_data` (src/guassian_beam.py, lines 42-43): destructure
`optimize.curve_fit(model_function, x_data, y_data, p0=initial_guess)` into
`param, covariance` and return the two-element list `[param, covariance]`,
modelled as the ordered pair.  Any failure of the solver propagates unchanged. -/
def fit_data (nparams : ℕ)
    (solve : (ℝ → List ℝ → ℝ) → List ℝ → List ℝ → List ℝ → Option (ℕ → ℝ))
    (cov : (ℝ → List ℝ → ℝ) → List ℝ → List ℝ → List ℝ → ℕ → ℕ → ℝ)
    (model_function : ℝ → List ℝ → ℝ) (x_data y_data : List ℝ)
    (initial_guess : List ℝ) : Except FitError (List ℝ × List (List ℝ)) :=
  match curve_fit nparams solve cov model_function x_data y_data initial_guess with
  | .error e => .error e
  | .ok paramCovariance => .ok (paramCovariance.1, paramCovariance.2)

/- ### Elementwise characterizations -/

lemma guassian_beam_erfc_getElem (x : List ℝ) (p_offset p_max x_half w : ℝ)
    (i : ℕ) :
    (guassian_beam_erfc x p_offset p_max x_half w)[i]? =
      (x[i]?).map fun xi =>
        p_offset + (p_max / 2) * erfc ((xi - x_half) / (w / Real.sqrt 2)) := by
  cases h : x[i]? with
  | none => simp [guassian_beam_erfc, List.getElem?_map, h]
  | some v => simp [guassian_beam_erfc, List.getElem?_map, h]

lemma guassian_beam_erfcF_getElem (x : List NFloat) (p_offset p_max x_half w : ℝ)
    (i : ℕ) :
    (guassian_beam_erfcF x p_offset p_max x_half w)[i]? =
      (x[i]?).map fun xi =>
        (((xi.subScalar x_half).divScalar (w / Real.sqrt 2)).erfcF.mulScalar
          (p_max / 2)).addScalar p_offset := by
  cases h : x[i]? with
  | none => simp [guassian_beam_erfcF, List.getElem?_map, h]
  | some v => simp [guassian_beam_erfcF, List.getElem?_map, h]

/-- Claim C1: for every position sequence `x` and reals `p_offset`, `p_max`,
`x_half`, `w` with `w` nonzero, `guassian_beam_erfc` computes elementwise
`result_i = p_offset + (p_max/2) * erfc ((x_i - x_half)/(w/√2))`, where `erfc`
is the standard complementary error function. -/
theorem beam_model_elementwise_formula (x : List ℝ)
    (p_offset p_max x_half w : ℝ) (hw : w ≠ 0) (i : ℕ) :
    (guassian_beam_erfc x p_offset p_max x_half w)[i]? =
      (x[i]?).map fun xi =>
        p_offset + (p_max / 2) * erfc ((xi - x_half) / (w / Real.sqrt 2)) :=
  guassian_beam_erfc_getElem x p_offset p_max x_half w i

/-- Witness for C1 at a concrete input. -/
theorem beam_model_elementwise_formula_witness :
    (guassian_beam_erfc [(3:ℝ)] 1 2 0 1)[0]? =
      (([(3:ℝ)])[0]?).map fun xi =>
        1 + ((2:ℝ) / 2) * erfc ((xi - 0) / (1 / Real.sqrt 2)) :=
  beam_model_elementwise_formula [(3:ℝ)] 1 2 0 1 (by norm_num) 0

/-- Claim C2 (counterexample): the claim quantifies over every choice of finite
parameters, but with `w = 0` (a finite value) the evaluation at `x = x_half`
performs the IEEE division `0.0/0.0`, and the entry is `NaN`, not
`p_offset + p_max/2`. -/
theorem beam_model_at_half_counterexample :
    (guassian_beam_erfcF [NFloat.finite 0] 0.1 2 0 0)[0]? ≠
      some (NFloat.finite (0.1 + 2 / 2)) := by
  rw [guassian_beam_erfcF_getElem]
  simp [NFloat.subScalar, NFloat.divScalar, NFloat.erfcF, NFloat.mulScalar,
    NFloat.addScalar]

/-- Claim C2 (amended: the parameters must also satisfy `w ≠ 0`): evaluating
the beam model at a position equal to `x_half` yields exactly
`p_offset + p_max/2`. -/
theorem beam_model_at_half (x : List NFloat) (p_offset p_max x_half w : ℝ)
    (hw : w ≠ 0) (i : ℕ) (hx : x[i]? = some (NFloat.finite x_half)) :
    (guassian_beam_erfcF x p_offset p_max x_half w)[i]? =
      some (NFloat.finite (p_offset + p_max / 2)) := by
  have hc : (w / Real.sqrt 2) ≠ 0 := div_ne_zero hw (by positivity)
  rw [guassian_beam_erfcF_getElem, hx]
  simp [NFloat.subScalar, NFloat.divScalar, NFloat.erfcF, NFloat.mulScalar,
    NFloat.addScalar, hc, erfc_zero]

/-- Witness for the amended C2: the spec's example,
`evaluate_beam_model([-2,-1,0,1,2], 0.1, 2.0, 0.0, 1.0)` has value `1.1` at
`x = 0`. -/
theorem beam_model_at_half_witness :
    (guassian_beam_erfcF
        [NFloat.finite (-2), NFloat.finite (-1), NFloat.finite 0,
          NFloat.finite 1, NFloat.finite 2] 0.1 2 0 1)[2]? =
      some (NFloat.finite 1.1) := by
  have h := beam_model_at_half
    [NFloat.finite (-2), NFloat.finite (-1), NFloat.finite 0,
      NFloat.finite 1, NFloat.finite 2] 0.1 2 0 1 (by norm_num) 2 (by rfl)
  have hval : (0.1 + 2 / 2 : ℝ) = 1.1 := by norm_num
  rw [hval] at h
  exact h

/-- Claim C10: the beam model is point-symmetric about
`(x_half, p_offset + p_max/2)`: the values at `x_half + d` and `x_half - d`
always sum to `2*p_offset + p_max`. -/
theorem beam_model_point_symmetry (p_offset p_max x_half w d : ℝ)
    (hw : w ≠ 0) :
    (guassian_beam_erfc [x_half + d] p_offset p_max x_half w).headI +
      (guassian_beam_erfc [x_half - d] p_offset p_max x_half w).headI =
        2 * p_offset + p_max := by
  have key := erfc_add_erfc_neg (d / (w / Real.sqrt 2))
  simp only [guassian_beam_erfc, List.map_cons, List.map_nil, List.headI]
  have h1 : x_half + d - x_half = d := by ring
  have h2 : x_half - d - x_half = -d := by ring
  rw [h1, h2, neg_div]
  linear_combination (p_max / 2) * key

/-- Witness for C10 at a concrete input. -/
theorem beam_model_point_symmetry_witness :
    (guassian_beam_erfc [(0:ℝ) + 1] 0 2 0 1).headI +
      (guassian_beam_erfc [(0:ℝ) - 1] 0 2 0 1).headI = 2 * 0 + 2 :=
  beam_model_point_symmetry 0 2 0 1 1 (by norm_num)

/-- Claim C5 (counterexample): with `p_max = 2 > 0` but `w = -1 < 0` the model
is strictly increasing, not decreasing: the value at `x = -1` is strictly
below the value at `x = 1`. -/
theorem beam_model_monotone_counterexample :
    (guassian_beam_erfc [(-1:ℝ)] 0 2 0 (-1)).headI <
      (guassian_beam_erfc [(1:ℝ)] 0 2 0 (-1)).headI := by
  have hs : (0:ℝ) < Real.sqrt 2 := Real.sqrt_pos.mpr (by norm_num)
  have e1 : ((-1:ℝ) - 0) / ((-1) / Real.sqrt 2) = Real.sqrt 2 := by
    field_simp
  have e2 : ((1:ℝ) - 0) / ((-1) / Real.sqrt 2) = -Real.sqrt 2 := by
    field_simp
  have hlt : erfc (Real.sqrt 2) < erfc (-Real.sqrt 2) :=
    erfc_strictAnti (by linarith)
  simp only [guassian_beam_erfc, List.map_cons, List.map_nil, List.headI]
  rw [e1, e2]
  linarith

/-- Claim C5 (amended: the beam radius must also be positive): for `p_max > 0`
and `w > 0`, the model value is strictly decreasing in the position. -/
theorem beam_model_strictAnti (p_offset p_max x_half w a b : ℝ)
    (hpm : 0 < p_max) (hw : 0 < w) (hab : a < b) :
    (guassian_beam_erfc [b] p_offset p_max x_half w).headI <
      (guassian_beam_erfc [a] p_offset p_max x_half w).headI := by
  have hc : (0:ℝ) < w / Real.sqrt 2 :=
    div_pos hw (Real.sqrt_pos.mpr (by norm_num))
  have harg : (a - x_half) / (w / Real.sqrt 2) <
      (b - x_half) / (w / Real.sqrt 2) :=
    (div_lt_div_right hc).mpr (by linarith)
  have hlt := erfc_strictAnti harg
  simp only [guassian_beam_erfc, List.map_cons, List.map_nil, List.headI]
  nlinarith

/-- Witness for the amended C5 at a concrete input. -/
theorem beam_model_strictAnti_witness :
    (guassian_beam_erfc [(1:ℝ)] 0 1 0 1).headI <
      (guassian_beam_erfc [(0:ℝ)] 0 1 0 1).headI :=
  beam_model_strictAnti 0 1 0 1 0 1 (by norm_num) (by norm_num) (by norm_num)

/-- Claim C4 (counterexample): with `w = 0` the evaluation does not fail; IEEE
division by (positive) zero produces `-inf`, `NaN` and `inf` intermediate
values and the call returns an ordinary result list, here
`[2.1, NaN, 0.1]` for positions `[-1, 0, 1]`. -/
theorem beam_model_w_zero_counterexample :
    guassian_beam_erfcF
        [NFloat.finite (-1), NFloat.finite 0, NFloat.finite 1] 0.1 2 0 0 =
      [NFloat.finite 2.1, NFloat.nan, NFloat.finite 0.1] := by
  have h1 : ((-1:ℝ) - 0) < 0 := by norm_num
  have h2 : ¬ (0 < ((-1:ℝ) - 0)) := by norm_num
  have h3 : (0 < ((1:ℝ) - 0)) := by norm_num
  simp only [guassian_beam_erfcF, List.map_cons, List.map_nil,
    NFloat.subScalar, NFloat.divScalar, NFloat.erfcF, NFloat.mulScalar,
    NFloat.addScalar, zero_div, if_pos rfl, h1, h2, h3, sub_self, lt_irrefl,
    if_true, if_false]
  norm_num

/-- Claim C4 (amended): with `w == 0` the function does not fail with an
error; NumPy float division by zero only emits a runtime warning, and the
returned entry is `p_offset + p_max` where `x_i < x_half` (via `erfc(-inf) = 2`),
`NaN` where `x_i = x_half` (via `0/0`), and `p_offset` where `x_i > x_half`
(via `erfc(inf) = 0`). -/
theorem beam_model_w_zero (p_offset p_max x_half v : ℝ) :
    (v < x_half →
      guassian_beam_erfcF [NFloat.finite v] p_offset p_max x_half 0 =
        [NFloat.finite (p_offset + p_max)]) ∧
    (v = x_half →
      guassian_beam_erfcF [NFloat.finite v] p_offset p_max x_half 0 =
        [NFloat.nan]) ∧
    (x_half < v →
      guassian_beam_erfcF [NFloat.finite v] p_offset p_max x_half 0 =
        [NFloat.finite p_offset]) := by
  refine ⟨fun h => ?_, fun h => ?_, fun h => ?_⟩
  · have hneg : v - x_half < 0 := by linarith
    have hnpos : ¬ (0 < v - x_half) := by linarith
    simp only [guassian_beam_erfcF, List.map_cons, List.map_nil,
      NFloat.subScalar, NFloat.divScalar, NFloat.erfcF, NFloat.mulScalar,
      NFloat.addScalar, zero_div, if_pos rfl, hneg, hnpos, if_true, if_false]
    have : p_offset + p_max / 2 * 2 = p_offset + p_max := by ring
    simp [this]
  · simp only [guassian_beam_erfcF, List.map_cons, List.map_nil,
      NFloat.subScalar, NFloat.divScalar, NFloat.erfcF, NFloat.mulScalar,
      NFloat.addScalar, h, sub_self, zero_div, if_pos rfl, lt_irrefl,
      if_false]
    simp
  · have hpos : 0 < v - x_half := by linarith
    simp only [guassian_beam_erfcF, List.map_cons, List.map_nil,
      NFloat.subScalar, NFloat.divScalar, NFloat.erfcF, NFloat.mulScalar,
      NFloat.addScalar, zero_div, if_pos rfl, hpos, if_true]
    simp

/-- Witness for the amended C4 at a concrete input. -/
theorem beam_model_w_zero_witness :
    guassian_beam_erfcF [NFloat.finite 1] 0.1 2 0 0 =
      [NFloat.finite 0.1] :=
  (beam_model_w_zero 0.1 2 0 1).2.2 (by norm_num)

lemma mem_of_getElem_opt {α : Type} {l : List α} {i : ℕ} {a : α}
    (h : l[i]? = some a) : a ∈ l := by
  induction l generalizing i with
  | nil => simp at h
  | cons b t ih =>
      cases i with
      | zero =>
          simp only [List.getElem?_cons_zero, Option.some.injEq] at h
          exact h ▸ List.mem_cons_self b t
      | succ j =>
          simp only [List.getElem?_cons_succ] at h
          exact List.mem_cons_of_mem b (ih h)

/-- Claim C6: for finite inputs and `w ≠ 0`, the output has the same length
and order as the input (entry `i` of the output is defined exactly from entry
`i` of the input) and every entry is finite. -/
theorem beam_model_shape_finite (x : List NFloat) (p_offset p_max x_half w : ℝ)
    (hw : w ≠ 0) (hfin : ∀ u ∈ x, ∃ r : ℝ, u = NFloat.finite r) :
    (guassian_beam_erfcF x p_offset p_max x_half w).length = x.length ∧
    ∀ i : ℕ, ∀ u : NFloat, x[i]? = some u →
      ∃ r : ℝ, (guassian_beam_erfcF x p_offset p_max x_half w)[i]? =
        some (NFloat.finite r) := by
  have hc : (w / Real.sqrt 2) ≠ 0 := div_ne_zero hw (by positivity)
  constructor
  · simp [guassian_beam_erfcF]
  · intro i u hu
    obtain ⟨r, hr⟩ := hfin u (mem_of_getElem_opt hu)
    subst hr
    refine ⟨p_offset + p_max / 2 * erfc ((r - x_half) / (w / Real.sqrt 2)), ?_⟩
    rw [guassian_beam_erfcF_getElem, hu]
    simp [NFloat.subScalar, NFloat.divScalar, NFloat.erfcF, NFloat.mulScalar,
      NFloat.addScalar, hc]

/-- Witness for C6 at a concrete input. -/
theorem beam_model_shape_finite_witness :
    (guassian_beam_erfcF [NFloat.finite 0] 0 1 0 1).length =
        ([NFloat.finite 0] : List NFloat).length ∧
    ∀ i : ℕ, ∀ u : NFloat, ([NFloat.finite 0] : List NFloat)[i]? = some u →
      ∃ r : ℝ, (guassian_beam_erfcF [NFloat.finite 0] 0 1 0 1)[i]? =
        some (NFloat.finite r) :=
  beam_model_shape_finite [NFloat.finite 0] 0 1 0 1 (by norm_num)
    (fun u hu => ⟨0, by simpa using hu⟩)

/-- Claim C3: calling the fit with x-data and y-data of unequal lengths, or
with an initial guess whose length differs from the model function's parameter
count, fails with a dimension-mismatch error, for every model function,
initial guess and optimizer. -/
theorem fit_data_dimension_mismatch (nparams : ℕ)
    (solve : (ℝ → List ℝ → ℝ) → List ℝ → List ℝ → List ℝ → Option (ℕ → ℝ))
    (cov : (ℝ → List ℝ → ℝ) → List ℝ → List ℝ → List ℝ → ℕ → ℕ → ℝ)
    (model_function : ℝ → List ℝ → ℝ) (x_data y_data p0 : List ℝ)
    (h : x_data.length ≠ y_data.length ∨ p0.length ≠ nparams) :
    fit_data nparams solve cov model_function x_data y_data p0 =
      .error .dimensionMismatch := by
  by_cases hxy : x_data.length = y_data.length
  · rcases h with h | h
    · exact absurd hxy h
    · simp [fit_data, curve_fit, hxy, h]
  · simp [fit_data, curve_fit, hxy]

/-- Witness for C3 at a concrete input. -/
theorem fit_data_dimension_mismatch_witness :
    fit_data 4 (fun _ _ _ _ => none) (fun _ _ _ _ _ _ => 0) (fun _ _ => 0)
        [(1:ℝ), 2] [(1:ℝ)] [(0:ℝ), 0, 0, 0] =
      .error .dimensionMismatch :=
  fit_data_dimension_mismatch 4 (fun _ _ _ _ => none) (fun _ _ _ _ _ _ => 0)
    (fun _ _ => 0) [(1:ℝ), 2] [(1:ℝ)] [(0:ℝ), 0, 0, 0] (Or.inl (by norm_num))

/-- Claim C7: whenever the fit returns successfully, the returned parameter
vector has the same length as the initial guess and the covariance matrix is
square with one row and one column per parameter. -/
theorem fit_data_success_shape (nparams : ℕ)
    (solve : (ℝ → List ℝ → ℝ) → List ℝ → List ℝ → List ℝ → Option (ℕ → ℝ))
    (cov : (ℝ → List ℝ → ℝ) → List ℝ → List ℝ → List ℝ → ℕ → ℕ → ℝ)
    (model_function : ℝ → List ℝ → ℝ) (x_data y_data p0 : List ℝ)
    (param : List ℝ) (covariance : List (List ℝ))
    (h : fit_data nparams solve cov model_function x_data y_data p0 =
      .ok (param, covariance)) :
    param.length = p0.length ∧ covariance.length = p0.length ∧
      ∀ row ∈ covariance, row.length = p0.length := by
  unfold fit_data curve_fit at h
  by_cases h1 : x_data.length = y_data.length
  · by_cases h2 : p0.length = nparams
    · simp only [h1, h2, ne_eq, not_true_eq_false, if_false] at h
      cases hs : solve model_function x_data y_data p0 with
      | none => rw [hs] at h; simp at h
      | some p =>
          rw [hs] at h
          simp only [Except.ok.injEq, Prod.mk.injEq] at h
          obtain ⟨hp, hc⟩ := h
          subst hp
          subst hc
          refine ⟨by simp [h2], by simp [h2], ?_⟩
          intro row hrow
          simp only [List.mem_map] at hrow
          obtain ⟨j, _, rfl⟩ := hrow
          simp [h2]
    · simp [h1, h2] at h
  · simp [h1] at h

/-- Witness for C7 at a concrete input. -/
theorem fit_data_success_shape_witness :
    ([(0:ℝ), 0, 0, 0]).length = ([(1:ℝ), 2, 3, 4]).length ∧
    ([[(0:ℝ), 0, 0, 0], [0, 0, 0, 0], [0, 0, 0, 0], [0, 0, 0, 0]]).length =
      ([(1:ℝ), 2, 3, 4]).length ∧
    ∀ row ∈ [[(0:ℝ), 0, 0, 0], [0, 0, 0, 0], [0, 0, 0, 0], [0, 0, 0, 0]],
      row.length = ([(1:ℝ), 2, 3, 4]).length :=
  fit_data_success_shape 4 (fun _ _ _ _ => some fun _ => 0)
    (fun _ _ _ _ _ _ => 0) (fun _ _ => 0) [(1:ℝ), 2] [(3:ℝ), 4]
    [(1:ℝ), 2, 3, 4] [(0:ℝ), 0, 0, 0]
    [[(0:ℝ), 0, 0, 0], [0, 0, 0, 0], [0, 0, 0, 0], [0, 0, 0, 0]] (by rfl)

/-- Claim C9: `fit_data` catches nothing and translates nothing: any failure
of the underlying solver propagates to the caller as the solver's own error
value. -/
theorem fit_data_propagates_error (nparams : ℕ)
    (solve : (ℝ → List ℝ → ℝ) → List ℝ → List ℝ → List ℝ → Option (ℕ → ℝ))
    (cov : (ℝ → List ℝ → ℝ) → List ℝ → List ℝ → List ℝ → ℕ → ℕ → ℝ)
    (model_function : ℝ → List ℝ → ℝ) (x_data y_data p0 : List ℝ)
    (e : FitError)
    (h : curve_fit nparams solve cov model_function x_data y_data p0 =
      .error e) :
    fit_data nparams solve cov model_function x_data y_data p0 = .error e := by
  unfold fit_data
  rw [h]

/-- Witness for C9 at a concrete input: an optimizer that does not converge
surfaces its own non-convergence error unchanged. -/
theorem fit_data_propagates_error_witness :
    fit_data 0 (fun _ _ _ _ => none) (fun _ _ _ _ _ _ => 0) (fun _ _ => 0)
        [(1:ℝ)] [(1:ℝ)] [] = .error .nonConvergence :=
  fit_data_propagates_error 0 (fun _ _ _ _ => none) (fun _ _ _ _ _ _ => 0)
    (fun _ _ => 0) [(1:ℝ)] [(1:ℝ)] [] .nonConvergence (by rfl)
